import Mathlib

/-!
Shallow embedding of the FuelWise trip-cost application (TypeScript/React).

Sources embedded here:
- `src/unnamed/part_001` (the `App` component): `calculateCost`, the
  initialization effect, the selection-default effect, the fuel-price facet,
  `handleSaveVehicle` / `handleDeleteVehicle`, and the origin-suggestions
  autocomplete effect.
- `src/unnamed/part_000` (`apiService`): `searchLocation`, `calculateRoute`.
- `src/types.ts`: the data model.

Modelling conventions:
- JavaScript numbers are idealized as rationals, except where IEEE special
  values are reachable and observable: division is modelled by `JsNum`, a
  rational extended with signed infinities and NaN, because the source divides
  `100 / vehicle.consumptionValue` without excluding zero (JS: `100/0` is
  `Infinity`).
- `string | null` values that the source tests for truthiness as null-checks
  (vehicle ids) are modelled as `Option String`; vehicle ids in this
  application are nonempty strings produced by the vehicle manager.
- A number tested for truthiness (`if (storedPrice)`) is falsy in JS when it
  is 0, and that test is modelled faithfully.
- Remote calls are modelled by passing the network outcome as an explicit
  argument (`FetchResult`); a thrown/rejected fetch is the `fail` constructor.
-/

/-- Rational numbers extended with the IEEE special values reachable in the
source: positive/negative infinity and NaN. Models a JavaScript number. -/
inductive JsNum where
  | fin : ℚ → JsNum
  | posInf : JsNum
  | negInf : JsNum
  | nan : JsNum
deriving DecidableEq, Repr

namespace JsNum

/-- JavaScript multiplication on `JsNum`, following IEEE-754 sign rules;
`0 * Infinity` is NaN. -/
def mul : JsNum → JsNum → JsNum
  | nan, _ => nan
  | _, nan => nan
  | fin a, fin b => fin (a * b)
  | fin a, posInf => if 0 < a then posInf else if a < 0 then negInf else nan
  | fin a, negInf => if 0 < a then negInf else if a < 0 then posInf else nan
  | posInf, fin b => if 0 < b then posInf else if b < 0 then negInf else nan
  | negInf, fin b => if 0 < b then negInf else if b < 0 then posInf else nan
  | posInf, posInf => posInf
  | posInf, negInf => negInf
  | negInf, posInf => negInf
  | negInf, negInf => posInf

/-- JavaScript division on `JsNum`: a nonzero rational divided by 0 yields a
signed infinity, `0 / 0` yields NaN (ℚ has no negative zero, so the dividend 0
is treated as +0). -/
def div : JsNum → JsNum → JsNum
  | nan, _ => nan
  | _, nan => nan
  | fin a, fin b =>
      if b = 0 then (if a = 0 then nan else if 0 < a then posInf else negInf)
      else fin (a / b)
  | fin _, posInf => fin 0
  | fin _, negInf => fin 0
  | posInf, fin b => if b < 0 then negInf else posInf
  | negInf, fin b => if b < 0 then posInf else negInf
  | posInf, posInf => nan
  | posInf, negInf => nan
  | negInf, posInf => nan
  | negInf, negInf => nan

theorem mul_fin_fin (a b : ℚ) : mul (fin a) (fin b) = fin (a * b) := rfl

theorem div_fin_fin (a b : ℚ) (hb : b ≠ 0) : div (fin a) (fin b) = fin (a / b) := by
  simp [div, hb]

end JsNum

/-- Fuel type of a vehicle (`"diesel" | "gasoline"` in `src/types.ts`). -/
inductive FuelType where
  | diesel
  | gasoline
deriving DecidableEq, Repr

/-- Consumption unit (`FuelUnit` enum in `src/types.ts`). -/
inductive FuelUnit where
  | L_PER_100KM
  | KM_PER_L
deriving DecidableEq, Repr

/-- A vehicle profile (`Vehicle` in `src/types.ts`). -/
structure Vehicle where
  id : String
  name : String
  fuelType : FuelType
  consumptionValue : ℚ
  consumptionUnit : FuelUnit
deriving DecidableEq, Repr

/-- A geocoded point (`LocationPoint` in `src/types.ts`). -/
structure LocationPoint where
  lat : ℚ
  lon : ℚ
  label : String
deriving DecidableEq, Repr

/-- A computed route (`RouteResult` in `src/types.ts`); the geometry payload is
opaque. -/
structure RouteResult where
  distanceKm : ℚ
  durationMin : ℚ
  geometry : String
deriving DecidableEq, Repr

/-- The derived cost estimate (`TripCalculation` in `src/types.ts`). Its fields
are `JsNum` because the normalized consumption rate can be infinite when a
zero consumption value meets the km-per-liter unit. -/
structure TripCalculation where
  litersNeeded : JsNum
  totalCost : JsNum
  costPer100Km : JsNum
deriving DecidableEq, Repr

/-- The normalization step inside `calculateCost` (part_001, lines 253-256):
`let lPer100 = vehicle.consumptionValue; if (unit === KM_PER_L) lPer100 =
100 / vehicle.consumptionValue;`. The division is JS division: with
`consumptionValue = 0` it produces `Infinity`, not 0. -/
def normalizeLPer100 (v : Vehicle) : JsNum :=
  if v.consumptionUnit = FuelUnit.KM_PER_L then
    JsNum.div (JsNum.fin 100) (JsNum.fin v.consumptionValue)
  else
    JsNum.fin v.consumptionValue

/-- The `calculateCost` handler of the `App` component (part_001, lines
245-265) as a function from the state it reads (`route`,
`selectedVehicleId`, `vehicles`, `fuelPrice.price`) and the previous value of
the `calculation` state to the new value of `calculation`:
`setCalculation(null)` when route or selected id is null, an early `return`
(leaving `calculation` untouched) when the selected id matches no vehicle,
and otherwise the computed `TripCalculation`. -/
def calculateCost (route : Option RouteResult) (selectedVehicleId : Option String)
    (vehicles : List Vehicle) (price : ℚ) (prev : Option TripCalculation) :
    Option TripCalculation :=
  match route, selectedVehicleId with
  | some r, some vid =>
      match vehicles.find? (fun v => v.id == vid) with
      | none => prev
      | some vehicle =>
          let lPer100 := normalizeLPer100 vehicle
          let litersNeeded := JsNum.mul (JsNum.fin r.distanceKm) (JsNum.div lPer100 (JsNum.fin 100))
          some { litersNeeded := litersNeeded
                 totalCost := JsNum.mul litersNeeded (JsNum.fin price)
                 costPer100Km := JsNum.mul lPer100 (JsNum.fin price) }
  | _, _ => none

/-- C1: for every route distance d, fuel price p and selected vehicle whose
normalized consumption rate is the finite rational n, the computed
TripCalculation satisfies litersNeeded = d * n / 100,
totalCost = litersNeeded * p and costPer100Km = n * p. -/
theorem calculateCost_formulas (r : RouteResult) (v : Vehicle) (p n : ℚ)
    (prev : Option TripCalculation)
    (hd : 0 ≤ r.distanceKm)
    (hn : normalizeLPer100 v = JsNum.fin n) :
    calculateCost (some r) (some v.id) [v] p prev =
      some { litersNeeded := JsNum.fin (r.distanceKm * n / 100)
             totalCost := JsNum.fin (r.distanceKm * n / 100 * p)
             costPer100Km := JsNum.fin (n * p) } := by
  have hfind : List.find? (fun w => w.id == v.id) [v] = some v := by
    simp [List.find?]
  have h100 : (100 : ℚ) ≠ 0 := by norm_num
  simp only [calculateCost, hfind, hn, JsNum.div_fin_fin n 100 h100,
    JsNum.mul_fin_fin, Option.some.injEq, TripCalculation.mk.injEq, JsNum.fin.injEq]
  exact ⟨by ring, by ring, trivial⟩

/-- Witness for C1: the spec scenario — vehicle "Test Car", diesel,
6 L/100km, route distance 100 km, price 1.60 — yields litersNeeded = 6,
totalCost = 9.60 and costPer100Km = 9.60. -/
theorem calculateCost_formulas_witness :
    calculateCost (some { distanceKm := 100, durationMin := 60, geometry := "g" })
      (some "v1")
      [{ id := "v1", name := "Test Car", fuelType := FuelType.diesel,
         consumptionValue := 6, consumptionUnit := FuelUnit.L_PER_100KM }]
      (8/5) none =
      some { litersNeeded := JsNum.fin 6
             totalCost := JsNum.fin (48/5)
             costPer100Km := JsNum.fin (48/5) } := by
  have h := calculateCost_formulas
    { distanceKm := 100, durationMin := 60, geometry := "g" }
    { id := "v1", name := "Test Car", fuelType := FuelType.diesel,
      consumptionValue := 6, consumptionUnit := FuelUnit.L_PER_100KM }
    (8/5) 6 none (by norm_num) (by decide)
  norm_num at h
  exact h

/-- Counterexample for C2: a vehicle with consumptionValue = 0 and unit
km-per-liter does not normalize to 0 — the source divides `100 / 0`, which in
JavaScript is `Infinity`. -/
theorem normalizeLPer100_zero_kmPerL_cex :
    normalizeLPer100
      { id := "z", name := "Zero", fuelType := FuelType.gasoline,
        consumptionValue := 0, consumptionUnit := FuelUnit.KM_PER_L } ≠
      JsNum.fin 0 := by
  decide

/-- C2 (amended): if the unit is km-per-liter and the value is nonzero, the
normalized rate is 100 / value; if the unit is liters-per-100km the value is
used as-is (so value 0 gives rate 0 only under that unit); a value of 0 with
unit km-per-liter yields the infinite JS value, not 0. -/
theorem normalizeLPer100_spec (v : Vehicle) :
    (v.consumptionUnit = FuelUnit.KM_PER_L → v.consumptionValue ≠ 0 →
      normalizeLPer100 v = JsNum.fin (100 / v.consumptionValue)) ∧
    (v.consumptionUnit = FuelUnit.L_PER_100KM →
      normalizeLPer100 v = JsNum.fin v.consumptionValue) ∧
    (v.consumptionUnit = FuelUnit.KM_PER_L → v.consumptionValue = 0 →
      normalizeLPer100 v = JsNum.posInf) := by
  refine ⟨fun hu hv => ?_, fun hu => ?_, fun hu hv => ?_⟩
  · simp [normalizeLPer100, hu, JsNum.div_fin_fin 100 v.consumptionValue hv]
  · simp [normalizeLPer100, hu]
  · simp [normalizeLPer100, hu, hv, JsNum.div]

/-- Witness for C2 (amended): a vehicle doing 4 km per liter normalizes to
25 L/100km, and the zero-consumption km-per-liter vehicle normalizes to the
infinite value. -/
theorem normalizeLPer100_spec_witness :
    normalizeLPer100
      { id := "a", name := "A", fuelType := FuelType.diesel,
        consumptionValue := 4, consumptionUnit := FuelUnit.KM_PER_L } =
      JsNum.fin 25 ∧
    normalizeLPer100
      { id := "z", name := "Zero", fuelType := FuelType.gasoline,
        consumptionValue := 0, consumptionUnit := FuelUnit.KM_PER_L } =
      JsNum.posInf := by
  constructor
  · have h := (normalizeLPer100_spec
      { id := "a", name := "A", fuelType := FuelType.diesel,
        consumptionValue := 4, consumptionUnit := FuelUnit.KM_PER_L }).1
      rfl (by norm_num)
    norm_num at h
    exact h
  · exact (normalizeLPer100_spec
      { id := "z", name := "Zero", fuelType := FuelType.gasoline,
        consumptionValue := 0, consumptionUnit := FuelUnit.KM_PER_L }).2.2
      rfl rfl

/-- C3: whenever the route is absent or no vehicle is selected, the derived
TripCalculation is absent (`setCalculation(null)`), for every state of the
remaining inputs. -/
theorem calculateCost_absent (route : Option RouteResult)
    (selectedVehicleId : Option String) (vehicles : List Vehicle) (price : ℚ)
    (prev : Option TripCalculation)
    (h : route = none ∨ selectedVehicleId = none) :
    calculateCost route selectedVehicleId vehicles price prev = none := by
  rcases h with h | h
  · subst h; cases selectedVehicleId <;> rfl
  · subst h; cases route <;> rfl

/-- Witness for C3: with no route but a selected vehicle id, a vehicle list
and a price, the calculation is absent. -/
theorem calculateCost_absent_witness :
    calculateCost none (some "v1")
      [{ id := "v1", name := "Test Car", fuelType := FuelType.diesel,
         consumptionValue := 6, consumptionUnit := FuelUnit.L_PER_100KM }]
      (8/5) none = none :=
  calculateCost_absent none (some "v1") _ (8/5) none (Or.inl rfl)

/-- C10: if a route is present and a vehicle id is selected but no vehicle in
the list has that id, `calculateCost` returns early and the previous
calculation is retained, not cleared. -/
theorem calculateCost_staleRetained (r : RouteResult) (vid : String)
    (vehicles : List Vehicle) (price : ℚ) (prev : Option TripCalculation)
    (h : ∀ v ∈ vehicles, v.id ≠ vid) :
    calculateCost (some r) (some vid) vehicles price prev = prev := by
  have hfind : vehicles.find? (fun v => v.id == vid) = none := by
    rw [List.find?_eq_none]
    intro v hv
    simpa using h v hv
  simp [calculateCost, hfind]

/-- Witness for C10: with an empty vehicle list and a previously stored
calculation, the stale calculation survives the recomputation. -/
theorem calculateCost_staleRetained_witness :
    calculateCost (some { distanceKm := 100, durationMin := 60, geometry := "g" })
      (some "ghost") [] (8/5)
      (some { litersNeeded := JsNum.fin 1, totalCost := JsNum.fin 2,
              costPer100Km := JsNum.fin 3 }) =
      some { litersNeeded := JsNum.fin 1, totalCost := JsNum.fin 2,
             costPer100Km := JsNum.fin 3 } :=
  calculateCost_staleRetained
    { distanceKm := 100, durationMin := 60, geometry := "g" } "ghost" [] (8/5)
    (some { litersNeeded := JsNum.fin 1, totalCost := JsNum.fin 2,
            costPer100Km := JsNum.fin 3 })
    (by intro v hv; cases hv)

/-- Outcome of a remote HTTP call as observed by the adapter code: `fail` is a
rejected fetch or a body that failed to parse (anything thrown inside the
`try` before the status checks), `resp ok body` is a parsed response together
with its `response.ok` flag. -/
inductive FetchResult (α : Type) where
  | fail : FetchResult α
  | resp : Bool → α → FetchResult α
deriving DecidableEq, Repr

/-- One candidate route in the OSRM response body (`data.routes[i]`):
distance in meters, duration in seconds, plus a geometry payload (the source
stores `JSON.stringify(route.geometry)`; the serialized string is modelled
directly). -/
structure OsrmRoute where
  distance : ℚ
  duration : ℚ
  geometry : String
deriving DecidableEq, Repr

/-- The OSRM response body: a status code string and the candidate list
(an absent `routes` field is the empty list — both fail the same check in the
source). -/
structure OsrmData where
  code : String
  routes : List OsrmRoute
deriving DecidableEq, Repr

/-- The `calculateRoute` adapter (part_000, lines 60-85): throws (and returns
null via the catch) when the response is not ok, when `data.code` is not
"Ok", or when the candidate list is empty; otherwise takes the first
candidate and converts meters to kilometers and seconds to minutes. -/
def calculateRoute (h : FetchResult OsrmData) : Option RouteResult :=
  match h with
  | FetchResult.fail => none
  | FetchResult.resp ok data =>
      if !ok then none
      else if data.code ≠ "Ok" then none
      else
        match data.routes with
        | [] => none
        | r :: _ =>
            some { distanceKm := r.distance / 1000
                   durationMin := r.duration / 60
                   geometry := r.geometry }

/-- C4: `calculateRoute` returns the failure result exactly when the HTTP
response is unsuccessful (including a failed fetch), the provider status code
is not "Ok", or the candidate list is empty; otherwise it returns the first
candidate only, with distance divided by 1000 and duration divided by 60. -/
theorem calculateRoute_spec (ok : Bool) (data : OsrmData) :
    calculateRoute FetchResult.fail = none ∧
    (calculateRoute (FetchResult.resp ok data) = none ↔
      (ok = false ∨ data.code ≠ "Ok" ∨ data.routes = [])) ∧
    (∀ r rest, ok = true → data.code = "Ok" → data.routes = r :: rest →
      calculateRoute (FetchResult.resp ok data) =
        some { distanceKm := r.distance / 1000
               durationMin := r.duration / 60
               geometry := r.geometry }) := by
  refine ⟨rfl, ?_, ?_⟩
  · cases ok with
    | false => simp [calculateRoute]
    | true =>
        by_cases hc : data.code = "Ok"
        · cases hr : data.routes with
          | nil => simp [calculateRoute, hc, hr]
          | cons r rest => simp [calculateRoute, hc, hr]
        · simp [calculateRoute, hc]
  · intro r rest hok hc hr
    subst hok
    simp [calculateRoute, hc, hr]

/-- Witness for C4: a successful response with code "Ok" and one candidate of
2000 m / 120 s yields a 2 km, 2 minute route. -/
theorem calculateRoute_spec_witness :
    calculateRoute (FetchResult.resp true
      { code := "Ok", routes := [{ distance := 2000, duration := 120, geometry := "geo" }] }) =
      some { distanceKm := 2, durationMin := 2, geometry := "geo" } := by
  have h := (calculateRoute_spec true
    { code := "Ok", routes := [{ distance := 2000, duration := 120, geometry := "geo" }] }).2.2
    { distance := 2000, duration := 120, geometry := "geo" } [] rfl rfl rfl
  norm_num at h
  exact h

/-- One candidate of the Nominatim search response (`NominatimResult` in
`src/types.ts`): latitude and longitude are string-encoded. -/
structure NominatimResult where
  lat : String
  lon : String
  display_name : String
deriving DecidableEq, Repr

/-- The `searchLocation` adapter (part_000, lines 9-36), parametrized by the
number parser (JS `parseFloat`) applied to the string-encoded coordinates.
Returns the suggestion list together with a flag recording whether the remote
service was called. Queries shorter than 3 characters return the empty list
before any fetch; a failed fetch or a non-ok response throws inside the `try`
and the catch returns the empty list. -/
def searchLocation (parseNum : String → ℚ) (query : String)
    (h : FetchResult (List NominatimResult)) : List LocationPoint × Bool :=
  if query = "" ∨ query.length < 3 then ([], false)
  else
    match h with
    | FetchResult.fail => ([], true)
    | FetchResult.resp ok data =>
        if !ok then ([], true)
        else
          (data.map (fun item =>
            { lat := parseNum item.lat, lon := parseNum item.lon,
              label := item.display_name }), true)

/-- C6: `searchLocation` never raises (it is total with a plain list result):
every query shorter than 3 characters yields the empty list without calling
the remote service, and a failed network call or non-success response also
yields the empty list. -/
theorem searchLocation_failsOpen (parseNum : String → ℚ) (query : String)
    (h : FetchResult (List NominatimResult)) :
    (query.length < 3 → searchLocation parseNum query h = ([], false)) ∧
    (searchLocation parseNum query FetchResult.fail).1 = [] ∧
    (∀ items, (searchLocation parseNum query (FetchResult.resp false items)).1 = []) := by
  refine ⟨fun hq => ?_, ?_, fun items => ?_⟩
  · simp [searchLocation, hq]
  · unfold searchLocation
    split
    · rfl
    · rfl
  · unfold searchLocation
    split
    · rfl
    · rfl

/-- Witness for C6: the two-character query "ab" yields the empty list with no
remote call even when the network would fail. -/
theorem searchLocation_failsOpen_witness :
    searchLocation (fun _ => 0) "ab" FetchResult.fail = ([], false) :=
  (searchLocation_failsOpen (fun _ => 0) "ab" FetchResult.fail).1 (by decide)

/-- The vehicle-loading part of the `initializeData` effect (part_001, lines
61-78): adopt the remote fetch result when it is nonempty; on an empty result
or a thrown fetch (`none`), fall back to the locally persisted list. -/
def initializeVehicles (remote : Option (List Vehicle)) (stored : List Vehicle) :
    List Vehicle :=
  match remote with
  | some firebaseVehicles =>
      if 0 < firebaseVehicles.length then firebaseVehicles else stored
  | none => stored

/-- The selection-default effect (part_001, lines 97-106): when the vehicle
list is nonempty and nothing is selected, select the persisted id if a vehicle
with that id is in the list, else the first vehicle; otherwise leave the
current selection alone. -/
def selectionEffect (vehicles : List Vehicle) (current : Option String)
    (storedId : Option String) : Option String :=
  if 0 < vehicles.length ∧ current = none then
    match storedId with
    | some id =>
        if (vehicles.find? (fun v => v.id == id)).isSome then some id
        else vehicles.head?.map Vehicle.id
    | none => vehicles.head?.map Vehicle.id
  else current

/-- C7: on load the vehicle list is the remote result when the fetch succeeds
with a nonempty list, otherwise the locally persisted list; the selection then
defaults to the persisted id when present in the loaded list, else the first
vehicle, else none. -/
theorem initialization_spec (remote stored : List Vehicle)
    (vehicles : List Vehicle) (storedId : Option String) (id : String) :
    (remote ≠ [] → initializeVehicles (some remote) stored = remote) ∧
    initializeVehicles (some []) stored = stored ∧
    initializeVehicles none stored = stored ∧
    ((vehicles.find? (fun v => v.id == id)).isSome →
      selectionEffect vehicles none (some id) = some id) ∧
    (vehicles ≠ [] → (vehicles.find? (fun v => v.id == id)).isSome = false →
      selectionEffect vehicles none (some id) = vehicles.head?.map Vehicle.id) ∧
    (vehicles ≠ [] → selectionEffect vehicles none none = vehicles.head?.map Vehicle.id) ∧
    selectionEffect [] none storedId = none := by
  refine ⟨fun hr => ?_, ?_, rfl, fun hfind => ?_, fun hv hfind => ?_, fun hv => ?_, ?_⟩
  · have : 0 < remote.length := List.length_pos.mpr hr
    simp [initializeVehicles, this]
  · simp [initializeVehicles]
  · have hlen : 0 < vehicles.length := by
      cases vehicles with
      | nil => simp [List.find?] at hfind
      | cons v vs => simp
    simp [selectionEffect, hlen, hfind]
  · have hlen : 0 < vehicles.length := List.length_pos.mpr hv
    simp [selectionEffect, hlen, hfind]
  · have hlen : 0 < vehicles.length := List.length_pos.mpr hv
    simp [selectionEffect, hlen]
  · simp [selectionEffect]

/-- Witness for C7: a one-vehicle remote list is adopted over a different
stored list, and a stale persisted selection id ("old") absent from the loaded
list falls back to the first vehicle's id. -/
theorem initialization_spec_witness :
    initializeVehicles
      (some [{ id := "v1", name := "Test Car", fuelType := FuelType.diesel,
               consumptionValue := 6, consumptionUnit := FuelUnit.L_PER_100KM }])
      [{ id := "yard", name := "Old", fuelType := FuelType.gasoline,
         consumptionValue := 5, consumptionUnit := FuelUnit.L_PER_100KM }] =
      [{ id := "v1", name := "Test Car", fuelType := FuelType.diesel,
         consumptionValue := 6, consumptionUnit := FuelUnit.L_PER_100KM }] ∧
    selectionEffect
      [{ id := "v1", name := "Test Car", fuelType := FuelType.diesel,
         consumptionValue := 6, consumptionUnit := FuelUnit.L_PER_100KM }]
      none (some "old") = some "v1" := by
  constructor
  · exact (initialization_spec
      [{ id := "v1", name := "Test Car", fuelType := FuelType.diesel,
         consumptionValue := 6, consumptionUnit := FuelUnit.L_PER_100KM }]
      [{ id := "yard", name := "Old", fuelType := FuelType.gasoline,
         consumptionValue := 5, consumptionUnit := FuelUnit.L_PER_100KM }]
      [] none "x").1 (by decide)
  · have h := (initialization_spec [] []
      [{ id := "v1", name := "Test Car", fuelType := FuelType.diesel,
         consumptionValue := 6, consumptionUnit := FuelUnit.L_PER_100KM }]
      none "old").2.2.2.2.1 (by decide) (by decide)
    simpa using h

/-- Fuel price state (`FuelPriceData` in `src/types.ts`); the timestamp is an
abstract instant. -/
structure FuelPriceData where
  price : ℚ
  lastUpdated : Nat
  isAuto : Bool
deriving DecidableEq, Repr

/-- The `refreshFuelPrice` handler (part_001, lines 236-243) on a resolved
fetch: adopt the fetched price with a fresh timestamp and the auto flag (the
price adapter never rejects, part_000 lines 91-99). -/
def refreshFuelPrice (fetched : ℚ) (now : Nat) : FuelPriceData :=
  { price := fetched, lastUpdated := now, isAuto := true }

/-- The manual price edit (`onChange` of the price input, part_001, line 453):
keep the timestamp, set the entered price and clear the auto flag. -/
def manualPriceEdit (cur : FuelPriceData) (entered : ℚ) : FuelPriceData :=
  { price := entered, lastUpdated := cur.lastUpdated, isAuto := false }

/-- The price branch of the initialization effect (part_001, lines 88-94):
`if (storedPrice)` adopts the stored price as manual, keeping the previous
timestamp; a null stored price — and, by JS truthiness, a stored price of
exactly 0 — triggers the automatic refresh instead. -/
def initFuelPrice (stored : Option ℚ) (prev : FuelPriceData) (fetched : ℚ)
    (now : Nat) : FuelPriceData :=
  match stored with
  | some p =>
      if p = 0 then refreshFuelPrice fetched now
      else { price := p, lastUpdated := prev.lastUpdated, isAuto := false }
  | none => refreshFuelPrice fetched now

/-- Counterexample for C8: a persisted manual price of 0 exists but is not
adopted with flag=manual — the `if (storedPrice)` truthiness test treats 0 as
absent, so the automatic refresh runs and the resulting flag is auto. -/
theorem initFuelPrice_zero_cex :
    initFuelPrice (some 0) { price := 8/5, lastUpdated := 0, isAuto := false } 2 5 =
      { price := 2, lastUpdated := 5, isAuto := true } ∧
    ({ price := 2, lastUpdated := 5, isAuto := true } : FuelPriceData).isAuto ≠ false := by
  decide

/-- C8 (amended): on load a persisted nonzero price is adopted with
flag=manual; an absent persisted price, or a persisted price of exactly 0
(falsy in JS), triggers the automatic refresh that sets flag=auto; every
manual edit sets flag=manual; every refresh sets flag=auto, the fetched price
and a fresh timestamp. -/
theorem fuelPrice_facet_spec (stored : ℚ) (prev : FuelPriceData) (fetched v : ℚ)
    (now : Nat) :
    (stored ≠ 0 → initFuelPrice (some stored) prev fetched now =
      { price := stored, lastUpdated := prev.lastUpdated, isAuto := false }) ∧
    initFuelPrice none prev fetched now =
      { price := fetched, lastUpdated := now, isAuto := true } ∧
    initFuelPrice (some 0) prev fetched now =
      { price := fetched, lastUpdated := now, isAuto := true } ∧
    (manualPriceEdit prev v).isAuto = false ∧
    (manualPriceEdit prev v).price = v ∧
    (refreshFuelPrice fetched now).isAuto = true ∧
    (refreshFuelPrice fetched now).lastUpdated = now ∧
    (refreshFuelPrice fetched now).price = fetched := by
  refine ⟨fun hs => ?_, rfl, ?_, rfl, rfl, rfl, rfl, rfl⟩
  · simp [initFuelPrice, hs]
  · simp [initFuelPrice, refreshFuelPrice]

/-- Witness for C8 (amended): a persisted price of 1.75 is adopted as manual
with the previous timestamp kept. -/
theorem fuelPrice_facet_spec_witness :
    initFuelPrice (some (7/4)) { price := 8/5, lastUpdated := 3, isAuto := true } 2 9 =
      { price := 7/4, lastUpdated := 3, isAuto := false } :=
  (fuelPrice_facet_spec (7/4) { price := 8/5, lastUpdated := 3, isAuto := true }
    2 0 9).1 (by norm_num)

/-- The vehicle facet of the application state: list and selected id. -/
structure VehicleState where
  vehicles : List Vehicle
  selectedVehicleId : Option String
deriving DecidableEq, Repr

/-- Outcome of an awaited remote store operation: resolved or rejected. -/
inductive RemoteOutcome where
  | success
  | failure
deriving DecidableEq, Repr

/-- The functional update inside `handleSaveVehicle` (part_001, lines
152-160): replace the first vehicle with a matching id in place, or append
when no id matches. -/
def upsertVehicle (l : List Vehicle) (v : Vehicle) : List Vehicle :=
  match l.findIdx? (fun item => item.id == v.id) with
  | some idx => l.set idx v
  | none => l ++ [v]

/-- The `handleSaveVehicle` handler (part_001, lines 149-166) given the
outcome of the awaited remote `saveVehicle`: on success apply the upsert and
select the saved vehicle when nothing is selected; on failure (the catch
branch) raise the alert and leave the state untouched. The Bool is whether a
user-visible alert was raised. -/
def handleSaveVehicle (outcome : RemoteOutcome) (st : VehicleState)
    (v : Vehicle) : VehicleState × Bool :=
  match outcome with
  | RemoteOutcome.success =>
      ({ vehicles := upsertVehicle st.vehicles v,
         selectedVehicleId :=
           if st.selectedVehicleId = none then some v.id else st.selectedVehicleId },
       false)
  | RemoteOutcome.failure => (st, true)

/-- The `handleDeleteVehicle` handler (part_001, lines 168-177) given the
outcome of the awaited remote `deleteVehicle`: on success filter the vehicle
out and clear the selection when it pointed at the deleted id; on failure
raise the alert and leave the state untouched. -/
def handleDeleteVehicle (outcome : RemoteOutcome) (st : VehicleState)
    (id : String) : VehicleState × Bool :=
  match outcome with
  | RemoteOutcome.success =>
      ({ vehicles := st.vehicles.filter (fun v => v.id != id),
         selectedVehicleId :=
           if st.selectedVehicleId = some id then none else st.selectedVehicleId },
       false)
  | RemoteOutcome.failure => (st, true)

theorem mem_upsertVehicle (l : List Vehicle) (v : Vehicle) :
    v ∈ upsertVehicle l v := by
  unfold upsertVehicle
  cases hfind : l.findIdx? (fun item => item.id == v.id) with
  | none => simp
  | some idx =>
      have hi : idx < l.length :=
        (List.findIdx?_eq_some_iff_findIdx_eq.mp hfind).1
      exact List.mem_set l idx hi v

/-- C9: a failed remote save or delete raises the alert and leaves the
in-memory vehicle list and selection unchanged; the in-memory update (saved
vehicle present, deleted id gone and deselected, no alert) happens only on
remote success. -/
theorem vehicleMutation_atomicity (st : VehicleState) (v : Vehicle) (id : String) :
    handleSaveVehicle RemoteOutcome.failure st v = (st, true) ∧
    handleDeleteVehicle RemoteOutcome.failure st id = (st, true) ∧
    v ∈ (handleSaveVehicle RemoteOutcome.success st v).1.vehicles ∧
    (handleSaveVehicle RemoteOutcome.success st v).2 = false ∧
    (∀ w ∈ (handleDeleteVehicle RemoteOutcome.success st id).1.vehicles, w.id ≠ id) ∧
    (handleDeleteVehicle RemoteOutcome.success st id).1.selectedVehicleId ≠ some id ∧
    (handleDeleteVehicle RemoteOutcome.success st id).2 = false := by
  refine ⟨rfl, rfl, mem_upsertVehicle st.vehicles v, rfl, fun w hw => ?_, ?_, rfl⟩
  · have := List.mem_filter.mp hw
    simpa using this.2
  · simp only [handleDeleteVehicle]
    split
    · simp
    · assumption

/-- Witness for C9: a failed delete of "v1" from a one-vehicle garage with
"v1" selected leaves the state intact and raises the alert, while a
successful delete removes it and clears the selection without an alert. -/
theorem vehicleMutation_atomicity_witness :
    handleDeleteVehicle RemoteOutcome.failure
      { vehicles := [{ id := "v1", name := "Test Car", fuelType := FuelType.diesel,
                       consumptionValue := 6, consumptionUnit := FuelUnit.L_PER_100KM }],
        selectedVehicleId := some "v1" } "v1" =
      ({ vehicles := [{ id := "v1", name := "Test Car", fuelType := FuelType.diesel,
                        consumptionValue := 6, consumptionUnit := FuelUnit.L_PER_100KM }],
         selectedVehicleId := some "v1" }, true) ∧
    (handleDeleteVehicle RemoteOutcome.success
      { vehicles := [{ id := "v1", name := "Test Car", fuelType := FuelType.diesel,
                       consumptionValue := 6, consumptionUnit := FuelUnit.L_PER_100KM }],
        selectedVehicleId := some "v1" } "v1").1.selectedVehicleId ≠ some "v1" :=
  ⟨(vehicleMutation_atomicity
      { vehicles := [{ id := "v1", name := "Test Car", fuelType := FuelType.diesel,
                       consumptionValue := 6, consumptionUnit := FuelUnit.L_PER_100KM }],
        selectedVehicleId := some "v1" }
      { id := "v1", name := "Test Car", fuelType := FuelType.diesel,
        consumptionValue := 6, consumptionUnit := FuelUnit.L_PER_100KM } "v1").2.1,
   (vehicleMutation_atomicity
      { vehicles := [{ id := "v1", name := "Test Car", fuelType := FuelType.diesel,
                       consumptionValue := 6, consumptionUnit := FuelUnit.L_PER_100KM }],
        selectedVehicleId := some "v1" }
      { id := "v1", name := "Test Car", fuelType := FuelType.diesel,
        consumptionValue := 6, consumptionUnit := FuelUnit.L_PER_100KM } "v1").2.2.2.2.2.1⟩

/-- An asynchronous event observed by the origin-suggestions effect
(part_001, lines 114-125): either the debounced query changes (the effect
body runs and, for a query longer than 2 characters that does not match the
selected point's label, issues `searchLocation(q)`), or the promise of a
previously issued search for query `q` resolves with result `res`. -/
inductive SearchEv where
  | debounced (q : String)
  | resolved (q : String) (res : List LocationPoint)
deriving DecidableEq, Repr

/-- One step of the origin-suggestions state. The effect body only clears the
list (short query, or query equal to the selected label); a resolving promise
runs `.then(setOriginSuggestions)`, which applies the arrived result
unconditionally — the source attaches no staleness check comparing the
resolved query with the latest issued one. -/
def originSuggestionsStep (origin : Option LocationPoint)
    (suggestions : List LocationPoint) : SearchEv → List LocationPoint
  | SearchEv.debounced q =>
      match origin with
      | some o =>
          if o.label = q then []
          else if 2 < q.length then suggestions else []
      | none => if 2 < q.length then suggestions else []
  | SearchEv.resolved _ res => res

/-- The suggestion list after a sequence of debounce/resolution events. -/
def runOriginSuggestions (origin : Option LocationPoint)
    (init : List LocationPoint) (evs : List SearchEv) : List LocationPoint :=
  List.foldl (originSuggestionsStep origin) init evs

/-- C5 evaluated on the failing execution: a search for "Madrid" is issued,
then one for "Barcelona"; Barcelona's response arrives first, Madrid's stale
response arrives last — and the stale Madrid suggestions are the ones shown,
because `.then(setOriginSuggestions)` applies every arriving response. -/
theorem staleResponse_applied :
    runOriginSuggestions none []
      [SearchEv.debounced "Madrid",
       SearchEv.debounced "Barcelona",
       SearchEv.resolved "Barcelona" [{ lat := 41, lon := 2, label := "Barcelona" }],
       SearchEv.resolved "Madrid" [{ lat := 40, lon := -4, label := "Madrid" }]] =
      [{ lat := 40, lon := -4, label := "Madrid" }] ∧
    ({ lat := 40, lon := -4, label := "Madrid" } : LocationPoint) ≠
      { lat := 41, lon := 2, label := "Barcelona" } := by
  decide
